import Mathlib

/-!
Shallow embedding of the generator scripts of this repository
(`.github/scripts/generate_metafields.py` and
`.github/scripts/generate_fin_characteristics.py`).

The scripts are one-shot pipelines: fetch schema descriptors over HTTP,
filter/classify them, render one Liquid template document as a string, and
write it to a fixed path.  The embedding models the fetched HTTP responses as
already-parsed values (a run is a pure function of the parsed responses, the
credential, and the wall-clock timestamp string), and models the observable
outcome of a run as its process exit code, the number of network requests it
performed, and the file content it wrote (`none` when no write happened).

Python-specific behaviours that the claims depend on are embedded explicitly:
`str.replace` replaces every occurrence (`pyReplace`), `str.title` title-cases
at non-alphabetic boundaries (`title`), dict comprehensions keep the last
binding for a duplicate key (`vlookup`), and dict insertion preserves first
insertion order while updating in place (`dict_insert`).

All literal `{` / `}` characters of the generated Liquid text are written as
the escapes `\x7b` / `\x7d` inside string literals.
-/

/-- Python `str.replace(pat, repl)` on exploded strings: replaces every
non-overlapping occurrence, scanning left to right.  `fuel` bounds the
recursion (callers pass the length of the subject string; each step consumes
at least one character, so the fuel is never exhausted for nonempty `pat`). -/
def replaceFuel (pat repl : List Char) : Nat → List Char → List Char
  | _, [] => []
  | 0, s => s
  | fuel + 1, c :: rest =>
    if pat ≠ [] ∧ pat.isPrefixOf (c :: rest) then
      repl ++ replaceFuel pat repl fuel (List.drop pat.length (c :: rest))
    else
      c :: replaceFuel pat repl fuel rest

/-- Python `s.replace(pat, repl)` (all occurrences).  The scripts only call it
with nonempty `pat`. -/
def pyReplace (s pat repl : String) : String :=
  ⟨replaceFuel pat.data repl.data s.data.length s.data⟩

/-- Character worker for Python `str.title()`: an alphabetic character is
upper-cased when the previous character was not alphabetic and lower-cased
otherwise (ASCII view of CPython's cased-character rule, which is exact for
the ASCII-only strings this code handles). -/
def titleChars : Bool → List Char → List Char
  | _, [] => []
  | prevAlpha, c :: rest =>
    if c.isAlpha then
      (if prevAlpha then c.toLower else c.toUpper) :: titleChars true rest
    else
      c :: titleChars false rest

/-- Python `s.title()`. -/
def title (s : String) : String := ⟨titleChars false s.data⟩

/-- One entry of a sub-field's `validations` list (`{ name value }` in the
GraphQL query of `generate_metafields.py`). -/
structure Validation where
  name : String
  value : String
deriving DecidableEq

/-- `{v['name']: v['value'] for v in field.get('validations', [])}.get(n, d)`:
the dict comprehension keeps the last value bound to a duplicate name, hence
the lookup scans the reversed list. -/
def vlookup (vs : List Validation) (n d : String) : String :=
  match vs.reverse.find? (fun v => v.name = n) with
  | some v => v.value
  | none => d

/-- A node of the `metafieldDefinitions` edges of the first query in
`generate_metafields.py`: `namespace`, `key`, `name`, `type { name }`.
The `namespace` field is spelled `ns` (a Lean keyword otherwise), matching
the loop variable the script itself uses; the nested `type.name` is
flattened to `typeName`. -/
structure Node where
  ns : String
  key : String
  name : String
  typeName : String
deriving DecidableEq

/-- An element of the script's `metaobject_refs` list (lines 104-109). -/
structure MoRef where
  ns : String
  key : String
  name : String
deriving DecidableEq

/-- An element of the script's `regular_fields` list (lines 110-116). -/
structure RegularField where
  ns : String
  key : String
  name : String
  typeName : String
deriving DecidableEq

/-- One `fieldDefinitions` entry of a metaobject definition:
`key`, `name`, `type { name }` (flattened to `typeName`), `validations`. -/
structure FieldDef where
  key : String
  name : String
  typeName : String
  validations : List Validation
deriving DecidableEq

/-- The parsed `metaobjectDefinitionByType` payload used by the scripts:
its display `name` and its `fieldDefinitions`. -/
structure MetaobjectDefinition where
  name : String
  fieldDefinitions : List FieldDef
deriving DecidableEq

/-- An entry of the script's `metaobject_definitions` dict (lines 146-151). -/
structure MoDefEntry where
  ns : String
  key : String
  name : String
  fields : List FieldDef
deriving DecidableEq

/-- An element of the `bar_fields` list (lines 203-208). -/
structure BarField where
  key : String
  name : String
  min : String
  max : String
deriving DecidableEq

/-- An element of the `text_fields` list (lines 210-214). -/
structure TextField where
  key : String
  name : String
  multiline : Bool
deriving DecidableEq

/-- One value of `BAR_FIELD_CONFIG` (lines 25-58). -/
structure BarConfig where
  left_label : String
  left_sublabel : String
  right_label : String
  right_sublabel : String
  left_icon : String
  right_icon : String
deriving DecidableEq

def INCLUDE_NAMESPACES : List String := ["custom", "gato_heroi", "reviews", "descriptors"]

def EXCLUDE_KEYS : List String :=
  ["rating_value", "review_count", "rating", "rating_count", "availability"]

/-- `BAR_FIELD_CONFIG.get(config_key, {})`, keyed by
`metaobject_type.field_key` (lines 25-58 of `generate_metafields.py`);
`none` models the empty-dict default. -/
def BAR_FIELD_CONFIG (k : String) : Option BarConfig :=
  if k = "fin_characteristics.rake" then
    some ⟨"Upright", "Tight Turns", "Raked", "Drawn-Out Turns",
      "icon-fin-upright.svg", "icon-fin-raked.svg"⟩
  else if k = "fin_characteristics.area" then
    some ⟨"Less Area", "Loose", "More Area", "Stable",
      "icon-fin-less-area.svg", "icon-fin-more-area.svg"⟩
  else if k = "fin_characteristics.speed" then
    some ⟨"Speed Control", "", "Speed Generating", "Drive",
      "icon-fin-speed-control.svg", "icon-fin-speed-drive.svg"⟩
  else if k = "fin_characteristics.flex" then
    some ⟨"Less Flex", "Responsive", "More Flex", "Projection",
      "icon-fin-less-flex.svg", "icon-fin-more-flex.svg"⟩
  else
    none

/-- Lines 98-116: the single loop over `edges` that appends metaobject
references to `metaobject_refs` and allow-listed, non-deny-listed other
fields to `regular_fields`.  Note that the namespace allow-list and key
deny-list sit in the `elif` branch only: a `metaobject_reference` node is
collected unconditionally. -/
def partition_edges : List Node → List MoRef × List RegularField
  | [] => ([], [])
  | n :: rest =>
    let r := partition_edges rest
    if n.typeName = "metaobject_reference" then
      (⟨n.ns, n.key, n.name⟩ :: r.1, r.2)
    else if n.ns ∈ INCLUDE_NAMESPACES ∧ n.key ∉ EXCLUDE_KEYS then
      (r.1, ⟨n.ns, n.key, n.name, n.typeName⟩ :: r.2)
    else
      r

def metaobject_refs (edges : List Node) : List MoRef := (partition_edges edges).1

def regular_fields (edges : List Node) : List RegularField := (partition_edges edges).2

example : regular_fields
    [⟨"custom", "warranty", "Warranty", "single_line_text_field"⟩,
     ⟨"custom", "rating", "Rating", "number_decimal"⟩,
     ⟨"other", "a", "A", "url"⟩,
     ⟨"custom", "fin_characteristics", "Fin", "metaobject_reference"⟩] =
    [⟨"custom", "warranty", "Warranty", "single_line_text_field"⟩] := by decide

example : metaobject_refs
    [⟨"custom", "warranty", "Warranty", "single_line_text_field"⟩,
     ⟨"other", "fin_characteristics", "Fin", "metaobject_reference"⟩] =
    [⟨"other", "fin_characteristics", "Fin"⟩] := by decide

/-- The parsed transport response of the first query: its HTTP status code
and the `data.metafieldDefinitions.edges` list of its JSON body (the
script's chained `.get` calls default a missing path to `[]`). -/
structure Response where
  status_code : Nat
  edges : List Node

/-- The parsed transport response of one per-type
`metaobjectDefinitionByType` query (lines 141-143): its HTTP status code and
the definition of its JSON body (`none` models a `null` result).  The script
never inspects `status_code` of these responses. -/
structure MoResponse where
  status_code : Nat
  definition : Option MetaobjectDefinition

/-- Python dict assignment `d[k] = v` on an insertion-ordered dict: an
existing key keeps its position and gets the new value, a new key is
appended. -/
def dict_insert (d : List (String × MoDefEntry)) (k : String) (v : MoDefEntry) :
    List (String × MoDefEntry) :=
  if d.any (fun p => p.1 = k) then
    d.map (fun p => if p.1 = k then (k, v) else p)
  else
    d ++ [(k, v)]

/-- Lines 122-152: the loop over `metaobject_refs` that queries
`metaobjectDefinitionByType` with `mo_type = ref['key']` and stores the
definition under `metaobject_definitions[mo_type]` when the response body
holds one; a `null` definition adds nothing. -/
def metaobject_definitions_loop (moResp : String → MoResponse) :
    List MoRef → List (String × MoDefEntry) → List (String × MoDefEntry)
  | [], acc => acc
  | ref :: rest, acc =>
    let mo_type := ref.key
    match (moResp mo_type).definition with
    | some d =>
        metaobject_definitions_loop moResp rest
          (dict_insert acc mo_type ⟨ref.ns, ref.key, d.name, d.fieldDefinitions⟩)
    | none => metaobject_definitions_loop moResp rest acc

/-- The script's `metaobject_definitions` dict, as the insertion-ordered
association list produced from the fetched edges and the per-type
responses. -/
def metaobject_definitions (edges : List Node) (moResp : String → MoResponse) :
    List (String × MoDefEntry) :=
  metaobject_definitions_loop moResp (metaobject_refs edges) []

/-- The element appended to `bar_fields` for a `number_integer` sub-field
(lines 201-208): key, name, and the `min`/`max` validation values with
defaults `'0'`/`'100'`. -/
def mk_bar_field (f : FieldDef) : BarField :=
  ⟨f.key, f.name, vlookup f.validations "min" "0", vlookup f.validations "max" "100"⟩

/-- The element appended to `text_fields` for a text sub-field
(lines 210-214). -/
def mk_text_field (f : FieldDef) : TextField :=
  ⟨f.key, f.name, f.typeName == "multi_line_text_field"⟩

/-- Lines 191-214: the loop over a metaobject definition's sub-fields that
appends `number_integer` fields to `bar_fields`, single- or multi-line text
fields to `text_fields`, and drops every other type (no `else` branch in the
source). -/
def classify_fields : List FieldDef → List BarField × List TextField
  | [] => ([], [])
  | f :: rest =>
    let r := classify_fields rest
    if f.typeName = "number_integer" then
      (mk_bar_field f :: r.1, r.2)
    else if f.typeName = "single_line_text_field" ∨ f.typeName = "multi_line_text_field" then
      (r.1, mk_text_field f :: r.2)
    else
      r

example :
    classify_fields
      [⟨"rake", "Rake", "number_integer", [⟨"min", "0"⟩, ⟨"max", "100"⟩]⟩,
       ⟨"form_text", "Form Text", "multi_line_text_field", []⟩,
       ⟨"photo", "Photo", "file_reference", []⟩] =
    ([⟨"rake", "Rake", "0", "100"⟩], [⟨"form_text", "Form Text", true⟩]) := by decide

/-- Lines 162-167: the value markup of a flat metafield item, dispatching on
the declared type name (`url` renders a link, multi-line text appends the
`newline_to_br` filter, everything else interpolates the raw value). -/
def value_output (f : RegularField) : String :=
  if f.typeName = "url" then
    "<a href=\"\x7b\x7b product.metafields." ++ f.ns ++ "." ++ f.key ++
      ".value \x7d\x7d\" target=\"_blank\">View Guide</a>"
  else if f.typeName = "multi_line_text_field" then
    "\x7b\x7b product.metafields." ++ f.ns ++ "." ++ f.key ++ ".value | newline_to_br \x7d\x7d"
  else
    "\x7b\x7b product.metafields." ++ f.ns ++ "." ++ f.key ++ ".value \x7d\x7d"

/-- Lines 169-174: one guarded `<div class="product-metafields__item">` block
of the flat field list. -/
def field_block (f : RegularField) : String :=
  "    \x7b% if product.metafields." ++ f.ns ++ "." ++ f.key ++ ".value != blank %\x7d\n" ++
  "      <div class=\"product-metafields__item\">\n" ++
  "        <dt class=\"product-metafields__label\">" ++ f.name ++ "</dt>\n" ++
  "        <dd class=\"product-metafields__value\">" ++ value_output f ++ "</dd>\n" ++
  "      </div>\n" ++
  "    \x7b% endif %\x7d"

/-- Line 177: `fields_html = '\n'.join(field_blocks)`. -/
def fields_html (edges : List Node) : String :=
  String.intercalate "\n" ((regular_fields edges).map field_block)

/-- Lines 240-247: the left endpoint markup of one bar row, reading labels,
sublabel and icon from the configuration entry (field display name when the
entry is absent, empty strings otherwise); empty sublabel and icon are
skipped, mirroring Python string truthiness. -/
def left_html_of (config : Option BarConfig) (bf_name : String) : String :=
  let left_label := match config with | some c => c.left_label | none => bf_name
  let left_sublabel := match config with | some c => c.left_sublabel | none => ""
  let left_icon := match config with | some c => c.left_icon | none => ""
  "<span class=\"metaobject-viz__endpoint metaobject-viz__endpoint--left\">" ++
  (if left_icon = "" then "" else
    "<span class=\"metaobject-viz__icon\">\x7b\x7b \"" ++ left_icon ++
      "\" | asset_url | split: \"?\" | first \x7d\x7d</span>") ++
  "<span class=\"metaobject-viz__endpoint-text\"><strong>" ++ left_label ++ "</strong>" ++
  (if left_sublabel = "" then "" else " " ++ left_sublabel) ++
  "</span></span>"

/-- Lines 249-257: the right endpoint markup of one bar row (label default is
the empty string, icon comes after the text). -/
def right_html_of (config : Option BarConfig) : String :=
  let right_label := match config with | some c => c.right_label | none => ""
  let right_sublabel := match config with | some c => c.right_sublabel | none => ""
  let right_icon := match config with | some c => c.right_icon | none => ""
  "<span class=\"metaobject-viz__endpoint metaobject-viz__endpoint--right\">" ++
  "<span class=\"metaobject-viz__endpoint-text\"><strong>" ++ right_label ++ "</strong>" ++
  (if right_sublabel = "" then "" else " " ++ right_sublabel) ++
  "</span>" ++
  (if right_icon = "" then "" else
    "<span class=\"metaobject-viz__icon\">\x7b\x7b \"" ++ right_icon ++
      "\" | asset_url | split: \"?\" | first \x7d\x7d</span>") ++
  "</span>"

/-- Lines 229-270: the guarded bar-group block emitted for one `bar_fields`
element.  The marker style interpolates the raw runtime value
(`left: {{ viz_var.key.value }}%;` in the source); the `min`/`max` members of
the bar field are not consulted anywhere in the emission. -/
def bar_group_html (mo_type viz_var : String) (bf : BarField) : String :=
  let config := BAR_FIELD_CONFIG (mo_type ++ "." ++ bf.key)
  let left_html := left_html_of config bf.name
  let right_html := right_html_of config
  "      \x7b% if " ++ viz_var ++ "." ++ bf.key ++ ".value != blank %\x7d\n" ++
  "      <div class=\"metaobject-viz__bar-group\">\n" ++
  "        <div class=\"metaobject-viz__bar-row\">\n" ++
  "          " ++ left_html ++ "\n" ++
  "          <div class=\"metaobject-viz__bar\">\n" ++
  "            <div class=\"metaobject-viz__marker\" style=\"left: \x7b\x7b " ++ viz_var ++
    "." ++ bf.key ++ ".value \x7d\x7d%;\"></div>\n" ++
  "          </div>\n" ++
  "          " ++ right_html ++ "\n" ++
  "        </div>\n" ++
  "      </div>\n" ++
  "      \x7b% endif %\x7d\n"

/-- Line 278: the description label of a text sub-field, with Python
`replace` deleting every occurrence of `' Text'` and `'_text'`, turning
underscores into spaces, and `title()`-casing the result. -/
def label_of (tf_name : String) : String :=
  title (pyReplace (pyReplace (pyReplace tf_name " Text" "") "_text" "") "_" " ")

/-- Lines 279-285: the guarded description block emitted for one
`text_fields` element (`newline_to_br` filter when the sub-field is
multi-line). -/
def description_html (viz_var : String) (tf : TextField) : String :=
  let value_filter := if tf.multiline then " | newline_to_br" else ""
  "      \x7b% if " ++ viz_var ++ "." ++ tf.key ++ ".value != blank %\x7d\n" ++
  "      <div class=\"metaobject-viz__description\">\n" ++
  "        <strong>" ++ label_of tf.name ++ " |</strong> \x7b\x7b " ++ viz_var ++ "." ++
    tf.key ++ ".value" ++ value_filter ++ " \x7d\x7d\n" ++
  "      </div>\n" ++
  "      \x7b% endif %\x7d\n"

/-- Lines 216-290: the full visualization section of one metaobject
definition: the assign/if header, then every bar group (wrapped in
`metaobject-viz__bars` when any exists), then every description (wrapped in
`metaobject-viz__descriptions` when any exists), then the closing markup.
All bar fields are emitted before all text fields. -/
def viz_html (mo_type ns key name : String) (fields : List FieldDef) : String :=
  let viz_var := "mo_" ++ pyReplace key "-" "_"
  let bar_fields := (classify_fields fields).1
  let text_fields := (classify_fields fields).2
  "\n  \x7b% assign " ++ viz_var ++ " = product.metafields." ++ ns ++ "." ++ key ++
    ".value %\x7d\n" ++
  "  \x7b% if " ++ viz_var ++ " != blank %\x7d\n" ++
  "  <div class=\"metaobject-viz metaobject-viz--" ++ key ++ "\">\n" ++
  "    <h4 class=\"metaobject-viz__title\">" ++ name ++ "</h4>\n" ++
  (if bar_fields.isEmpty then "" else
    "    <div class=\"metaobject-viz__bars\">\n" ++
    String.join (bar_fields.map (bar_group_html mo_type viz_var)) ++
    "    </div>\n") ++
  (if text_fields.isEmpty then "" else
    "    <div class=\"metaobject-viz__descriptions\">\n" ++
    String.join (text_fields.map (description_html viz_var)) ++
    "    </div>\n") ++
  "  </div>\n  \x7b% endif %\x7d\n"

/-- Lines 180-291: the `metaobject_visualizations` list, one section per
entry of the `metaobject_definitions` dict, in dict (insertion) order. -/
def metaobject_visualizations (edges : List Node) (moResp : String → MoResponse) :
    List String :=
  (metaobject_definitions edges moResp).map
    (fun p => viz_html p.1 p.2.ns p.2.key p.2.name p.2.fields)

/-- Line 293: `metaobject_html = '\n'.join(metaobject_visualizations)`. -/
def metaobject_html (edges : List Node) (moResp : String → MoResponse) : String :=
  String.intercalate "\n" (metaobject_visualizations edges moResp)

/-- Line 296: `', '.join(INCLUDE_NAMESPACES)`. -/
def namespaces_str : String := String.intercalate ", " INCLUDE_NAMESPACES

/-- Line 297: the comma-joined dict keys, or `'none'` for an empty dict. -/
def mo_types_str (edges : List Node) (moResp : String → MoResponse) : String :=
  let md := metaobject_definitions edges moResp
  if md.isEmpty then "none" else String.intercalate ", " (md.map Prod.fst)

/-- Lines 299-302 of `generate_metafields.py`: the template text up to and
including `Generated: `, before the timestamp is spliced in. -/
def LIQ_A : String := "\x7b% comment %\x7d\n  PRODUCT METAFIELDS - AUTO-GENERATED\n  ====================================\n  Generated: "

/-- The template text between the timestamp and the regular-field count. -/
def LIQ_B : String := "\n  Regular fields: "

/-- The template text between the field count and the metaobject types. -/
def LIQ_C : String := "\n  Metaobject types: "

/-- The template text between the metaobject types and the namespaces. -/
def LIQ_D : String := "\n  Namespaces: "

/-- Lines 305-327: the template text between the namespaces summary and
`metaobject_html` (end of the provenance comment, the product-resolving
liquid block, and the heading markup). -/
def LIQ_E : String := "\n\n  DO NOT EDIT - This file is auto-generated from Shopify metafield definitions.\n\n  Metaobject visualizations are automatically generated:\n  - Integer fields (0-100) render as progress bars\n  - Text fields render as labeled descriptions\n\x7b% endcomment %\x7d\n\n\x7b% liquid\n  assign product = closest.product\n  if product == blank and request.visual_preview_mode\n    assign product = collections.all.products.first\n  endif\n%\x7d\n\n<div class=\"product-metafields\" \x7b\x7b block.shopify_attributes \x7d\x7d>\n  \x7b% if block.settings.show_heading and block.settings.heading != blank %\x7d\n    <h3 class=\"product-metafields__heading \x7b\x7b block.settings.heading_size \x7d\x7d\">\n      \x7b\x7b block.settings.heading \x7d\x7d\n    </h3>\n  \x7b% endif %\x7d\n"

/-- The template text between `metaobject_html` and `fields_html`. -/
def LIQ_F : String := "\n  <dl class=\"product-metafields__list\">\n"

/-- Lines 329-384: the static template tail after `fields_html` (closing
markup, stylesheet section and settings schema section). -/
def LIQ_G : String := "\n  </dl>\n</div>\n\n\x7b% stylesheet %\x7d\n  .product-metafields \x7b width: 100%; \x7d\n  .product-metafields__heading \x7b margin-bottom: var(--margin-sm); \x7d\n  .product-metafields__list \x7b display: grid; gap: var(--gap-xs); margin: 0; \x7d\n  .product-metafields__item \x7b\n    display: flex;\n    justify-content: space-between;\n    align-items: baseline;\n    gap: var(--gap-md);\n    padding: var(--padding-xs) 0;\n    border-bottom: 1px solid rgb(var(--color-foreground-rgb) / var(--opacity-10));\n  \x7d\n  .product-metafields__item:last-child \x7b border-bottom: none; \x7d\n  .product-metafields__label \x7b\n    font-weight: var(--font-weight-semibold);\n    color: rgb(var(--color-foreground-rgb) / var(--opacity-70));\n    flex-shrink: 0;\n  \x7d\n  .product-metafields__value \x7b margin: 0; text-align: right; max-width: 65%; \x7d\n  .product-metafields__value a \x7b color: var(--color-primary); text-decoration: underline; \x7d\n\n  /* Metaobject visualizations */\n  .metaobject-viz \x7b margin-bottom: var(--margin-lg); padding-bottom: var(--padding-md); border-bottom: 1px solid rgb(var(--color-foreground-rgb) / var(--opacity-10)); \x7d\n  .metaobject-viz__title \x7b font-size: var(--font-size-sm); font-weight: var(--font-weight-semibold); margin-bottom: var(--margin-sm); text-transform: uppercase; letter-spacing: 0.05em; \x7d\n  .metaobject-viz__bars \x7b margin-bottom: var(--margin-md); \x7d\n  .metaobject-viz__bar-group \x7b margin-bottom: 0.75rem; \x7d\n  .metaobject-viz__bar \x7b position: relative; height: 12px; border: 1px solid #898989; background: transparent; \x7d\n  .metaobject-viz__marker \x7b position: absolute; top: 0; width: 5px; height: 100%; background: #A82E2D; transform: translateX(-50%); \x7d\n  .metaobject-viz__bar-label \x7b margin-top: 0.25rem; font-size: 0.7rem; color: rgb(var(--color-foreground-rgb) / var(--opacity-70)); \x7d\n  .metaobject-viz__descriptions \x7b display: flex; flex-direction: column; gap: 0.375rem; font-size: var(--font-size-sm); \x7d\n  .metaobject-viz__description strong \x7b text-transform: uppercase; \x7d\n\x7b% endstylesheet %\x7d\n\n\x7b% schema %\x7d\n\x7b\n  \"name\": \"Product specs\",\n  \"tag\": null,\n  \"settings\": [\n    \x7b \"type\": \"paragraph\", \"content\": \"Auto-generated from Shopify metafields and metaobjects.\" \x7d,\n    \x7b \"type\": \"checkbox\", \"id\": \"show_heading\", \"label\": \"Show heading\", \"default\": true \x7d,\n    \x7b \"type\": \"text\", \"id\": \"heading\", \"label\": \"Heading\", \"default\": \"Specifications\" \x7d,\n    \x7b \"type\": \"select\", \"id\": \"heading_size\", \"label\": \"Heading size\", \"options\": [\n      \x7b \"value\": \"h4\", \"label\": \"Small\" \x7d,\n      \x7b \"value\": \"h3\", \"label\": \"Medium\" \x7d,\n      \x7b \"value\": \"h2\", \"label\": \"Large\" \x7d\n    ], \"default\": \"h4\" \x7d,\n    \x7b \"type\": \"range\", \"id\": \"padding-block-start\", \"label\": \"Top padding\", \"min\": 0, \"max\": 100, \"step\": 1, \"unit\": \"px\", \"default\": 16 \x7d,\n    \x7b \"type\": \"range\", \"id\": \"padding-block-end\", \"label\": \"Bottom padding\", \"min\": 0, \"max\": 100, \"step\": 1, \"unit\": \"px\", \"default\": 16 \x7d\n  ],\n  \"presets\": [\x7b \"name\": \"Product specs\", \"category\": \"Product\" \x7d]\n\x7d\n\x7b% endschema %\x7d"

/-- Lines 299-384: the full rendered document `liquid`, as the left-to-right
concatenation the script builds, with the generation timestamp supplied as a
parameter (the only wall-clock dependent input). -/
def liquid (edges : List Node) (moResp : String -> MoResponse) (timestamp : String) :
    String :=
  LIQ_A ++ timestamp ++ LIQ_B ++ toString (regular_fields edges).length ++ LIQ_C ++
    mo_types_str edges moResp ++ LIQ_D ++ namespaces_str ++ LIQ_E ++
    metaobject_html edges moResp ++ LIQ_F ++ fields_html edges ++ LIQ_G

/-- Everything of the rendered document that follows the timestamp; a
function of the fetched input only. -/
def liquid_after_timestamp (edges : List Node) (moResp : String -> MoResponse) : String :=
  LIQ_B ++ (toString (regular_fields edges).length ++ (LIQ_C ++
    (mo_types_str edges moResp ++ (LIQ_D ++ (namespaces_str ++ (LIQ_E ++
    (metaobject_html edges moResp ++ (LIQ_F ++ (fields_html edges ++ LIQ_G)))))))))

/-- Python truthiness of `os.environ.get('SHOPIFY_ADMIN_TOKEN')` as used by
`if not ACCESS_TOKEN:` in both scripts: falsy when the variable is absent
(`None`) or set to the empty string. -/
def token_present : Option String -> Bool
  | none => false
  | some s => !(s == "")

/-- The externally observable outcome of one script run: the process exit
code, how many network requests were performed, and the content written to
the fixed output file (`none` when nothing was written). -/
structure RunOutcome where
  exitCode : Nat
  requests_made : Nat
  written : Option String
deriving DecidableEq

/-- Everything outside world state a run of `generate_metafields.py` reads:
the credential environment variable, the parsed response of the
`metafieldDefinitions` query, the parsed response of each
`metaobjectDefinitionByType` query (a function of the queried type name),
and the formatted wall-clock timestamp. -/
structure World where
  token : Option String
  response : Response
  moResp : String -> MoResponse
  now : String

/-- The whole of `generate_metafields.py` as a function from its inputs to
its observable outcome:
no credential exits 0 before any request (lines 60-62); a non-200 status on
the first response exits 1 before writing (lines 87-89); otherwise one
request per metaobject reference follows and the rendered document is
written (line 386) with exit code 0.  The per-reference responses carry a
status code, but the script never checks it. -/
def run_generate_metafields (w : World) : RunOutcome :=
  if !(token_present w.token) then
    RunOutcome.mk 0 0 none
  else if w.response.status_code != 200 then
    RunOutcome.mk 1 1 none
  else
    RunOutcome.mk 0 (1 + (metaobject_refs w.response.edges).length)
      (some (liquid w.response.edges w.moResp w.now))

/-- Lines 62-65 of `generate_fin_characteristics.py`: the template text up
to and including `Generated: `. -/
def FIN_A : String := "\x7b% comment %\x7d\n  FIN CHARACTERISTICS - AUTO-GENERATED\n  =====================================\n  Generated: "

/-- The fin template text between the timestamp and the field count. -/
def FIN_B : String := "\n  Metaobject: fin_characteristics\n  Fields: "

/-- Lines 67-263: the static fin template tail after the field count. -/
def FIN_C : String := "\n\n  DO NOT EDIT - This file is auto-generated from Shopify metaobject definitions.\n  Only renders if product has custom.fin_characteristics metaobject reference.\n\x7b% endcomment %\x7d\n\n\x7b% liquid\n  assign product = closest.product\n  if product == blank and request.visual_preview_mode\n    assign product = collections.all.products.first\n  endif\n  assign fin = product.metafields.custom.fin_characteristics.value\n%\x7d\n\n\x7b% if fin != blank %\x7d\n<div class=\"fin-characteristics\" \x7b\x7b block.shopify_attributes \x7d\x7d>\n  \x7b% if block.settings.show_heading and block.settings.heading != blank %\x7d\n    <h3 class=\"fin-characteristics__heading \x7b\x7b block.settings.heading_size \x7d\x7d\">\n      \x7b\x7b block.settings.heading \x7d\x7d\n    </h3>\n  \x7b% endif %\x7d\n\n  <div class=\"fin-characteristics__chart\">\n    <h4 class=\"fin-characteristics__title\">\x7b\x7b product.title \x7d\x7d</h4>\n\n    \x7b% comment %\x7d Rake Bar \x7b% endcomment %\x7d\n    \x7b% if fin.rake.value != blank %\x7d\n    <div class=\"fin-characteristics__bar-group\">\n      <div class=\"fin-characteristics__bar\">\n        <div class=\"fin-characteristics__marker\" style=\"left: \x7b\x7b fin.rake.value \x7d\x7d%;\"></div>\n      </div>\n      <div class=\"fin-characteristics__labels\">\n        <span class=\"fin-characteristics__label-left\">\n          <span class=\"fin-characteristics__label-primary\">Upright</span> Tight Turns\n        </span>\n        <span class=\"fin-characteristics__label-right\">\n          <span class=\"fin-characteristics__label-primary\">Raked</span> Drawn-Out Turns\n        </span>\n      </div>\n    </div>\n    \x7b% endif %\x7d\n\n    \x7b% comment %\x7d Area Bar \x7b% endcomment %\x7d\n    \x7b% if fin.area.value != blank %\x7d\n    <div class=\"fin-characteristics__bar-group\">\n      <div class=\"fin-characteristics__bar\">\n        <div class=\"fin-characteristics__marker\" style=\"left: \x7b\x7b fin.area.value \x7d\x7d%;\"></div>\n      </div>\n      <div class=\"fin-characteristics__labels\">\n        <span class=\"fin-characteristics__label-left\">\n          <span class=\"fin-characteristics__label-primary\">Less Area</span> Loose\n        </span>\n        <span class=\"fin-characteristics__label-right\">\n          <span class=\"fin-characteristics__label-primary\">More Area</span> Stable\n        </span>\n      </div>\n    </div>\n    \x7b% endif %\x7d\n\n    \x7b% comment %\x7d Speed Bar \x7b% endcomment %\x7d\n    \x7b% if fin.speed.value != blank %\x7d\n    <div class=\"fin-characteristics__bar-group\">\n      <div class=\"fin-characteristics__bar\">\n        <div class=\"fin-characteristics__marker\" style=\"left: \x7b\x7b fin.speed.value \x7d\x7d%;\"></div>\n      </div>\n      <div class=\"fin-characteristics__labels\">\n        <span class=\"fin-characteristics__label-left\">\n          <span class=\"fin-characteristics__label-primary\">Speed Control</span>\n        </span>\n        <span class=\"fin-characteristics__label-right\">\n          <span class=\"fin-characteristics__label-primary\">Speed Generating</span> Drive\n        </span>\n      </div>\n    </div>\n    \x7b% endif %\x7d\n\n    \x7b% comment %\x7d Flex Bar \x7b% endcomment %\x7d\n    \x7b% if fin.flex.value != blank %\x7d\n    <div class=\"fin-characteristics__bar-group\">\n      <div class=\"fin-characteristics__bar\">\n        <div class=\"fin-characteristics__marker\" style=\"left: \x7b\x7b fin.flex.value \x7d\x7d%;\"></div>\n      </div>\n      <div class=\"fin-characteristics__labels\">\n        <span class=\"fin-characteristics__label-left\">\n          <span class=\"fin-characteristics__label-primary\">Less Flex</span> Responsive\n        </span>\n        <span class=\"fin-characteristics__label-right\">\n          <span class=\"fin-characteristics__label-primary\">More Flex</span> Projection\n        </span>\n      </div>\n    </div>\n    \x7b% endif %\x7d\n  </div>\n\n  \x7b% comment %\x7d Text descriptions \x7b% endcomment %\x7d\n  <div class=\"fin-characteristics__descriptions\">\n    \x7b% if fin.form_text.value != blank %\x7d\n      <div class=\"fin-characteristics__description\">\n        <span class=\"fin-characteristics__description-label\">Form |</span>\n        \x7b\x7b fin.form_text.value \x7d\x7d\n      </div>\n    \x7b% endif %\x7d\n\n    \x7b% if fin.function_text.value != blank %\x7d\n      <div class=\"fin-characteristics__description\">\n        <span class=\"fin-characteristics__description-label\">Function |</span>\n        \x7b\x7b fin.function_text.value \x7d\x7d\n      </div>\n    \x7b% endif %\x7d\n\n    \x7b% if fin.feel_text.value != blank %\x7d\n      <div class=\"fin-characteristics__description\">\n        <span class=\"fin-characteristics__description-label\">Feel |</span>\n        \x7b\x7b fin.feel_text.value \x7d\x7d\n      </div>\n    \x7b% endif %\x7d\n\n    \x7b% if fin.overall_text.value != blank %\x7d\n      <div class=\"fin-characteristics__description\">\n        <span class=\"fin-characteristics__description-label\">Overall |</span>\n        \x7b\x7b fin.overall_text.value \x7d\x7d\n      </div>\n    \x7b% endif %\x7d\n  </div>\n</div>\n\x7b% endif %\x7d\n\n\x7b% stylesheet %\x7d\n  .fin-characteristics \x7b width: 100%; \x7d\n  .fin-characteristics__heading \x7b margin-bottom: var(--margin-sm); \x7d\n  .fin-characteristics__chart \x7b margin-bottom: var(--margin-md); \x7d\n  .fin-characteristics__title \x7b\n    font-size: var(--font-size-base);\n    font-weight: var(--font-weight-semibold);\n    margin-bottom: var(--margin-sm);\n  \x7d\n  .fin-characteristics__bar-group \x7b margin-bottom: 0.75rem; \x7d\n  .fin-characteristics__bar \x7b\n    position: relative;\n    height: 12px;\n    border: 1px solid #898989;\n    background: transparent;\n  \x7d\n  .fin-characteristics__marker \x7b\n    position: absolute;\n    top: 0;\n    width: 5px;\n    height: 100%;\n    background: #A82E2D;\n    transform: translateX(-50%);\n  \x7d\n  .fin-characteristics__labels \x7b\n    display: flex;\n    justify-content: space-between;\n    margin-top: 0.25rem;\n    font-size: 0.75rem;\n    color: #898989;\n  \x7d\n  .fin-characteristics__label-primary \x7b\n    color: rgb(var(--color-foreground-rgb));\n    font-weight: var(--font-weight-medium);\n  \x7d\n  .fin-characteristics__descriptions \x7b\n    display: flex;\n    flex-direction: column;\n    gap: 0.5rem;\n  \x7d\n  .fin-characteristics__description \x7b\n    font-size: var(--font-size-sm);\n    line-height: 1.4;\n  \x7d\n  .fin-characteristics__description-label \x7b\n    font-weight: var(--font-weight-bold);\n    text-transform: uppercase;\n    margin-right: 0.25rem;\n  \x7d\n\x7b% endstylesheet %\x7d\n\n\x7b% schema %\x7d\n\x7b\n  \"name\": \"Fin characteristics\",\n  \"tag\": null,\n  \"settings\": [\n    \x7b \"type\": \"paragraph\", \"content\": \"Auto-generated. Only shows on products with fin_characteristics metaobject.\" \x7d,\n    \x7b \"type\": \"checkbox\", \"id\": \"show_heading\", \"label\": \"Show heading\", \"default\": true \x7d,\n    \x7b \"type\": \"text\", \"id\": \"heading\", \"label\": \"Heading\", \"default\": \"Form, Function & Feel\" \x7d,\n    \x7b \"type\": \"select\", \"id\": \"heading_size\", \"label\": \"Heading size\", \"options\": [\n      \x7b \"value\": \"h4\", \"label\": \"Small\" \x7d,\n      \x7b \"value\": \"h3\", \"label\": \"Medium\" \x7d,\n      \x7b \"value\": \"h2\", \"label\": \"Large\" \x7d\n    ], \"default\": \"h4\" \x7d,\n    \x7b \"type\": \"range\", \"id\": \"padding-block-start\", \"label\": \"Top padding\", \"min\": 0, \"max\": 100, \"step\": 1, \"unit\": \"px\", \"default\": 16 \x7d,\n    \x7b \"type\": \"range\", \"id\": \"padding-block-end\", \"label\": \"Bottom padding\", \"min\": 0, \"max\": 100, \"step\": 1, \"unit\": \"px\", \"default\": 16 \x7d\n  ],\n  \"presets\": [\x7b \"name\": \"Fin characteristics\", \"category\": \"Product\" \x7d]\n\x7d\n\x7b% endschema %\x7d"

/-- Lines 62-263: the rendered `fin-characteristics.liquid` document. -/
def fin_liquid (fields : List FieldDef) (timestamp : String) : String :=
  FIN_A ++ timestamp ++ FIN_B ++ toString fields.length ++ FIN_C

/-- The parsed transport response of the single query of
`generate_fin_characteristics.py`. -/
structure FinResponse where
  status_code : Nat
  definition : Option MetaobjectDefinition

/-- The inputs a run of `generate_fin_characteristics.py` reads. -/
structure FinWorld where
  token : Option String
  response : FinResponse
  now : String

/-- The whole of `generate_fin_characteristics.py` as a function from its
inputs to its observable outcome: no credential exits 0 with no request
(lines 18-20); a non-200 status exits 1 (lines 46-48); a missing
(`null`) definition exits 0 without writing (lines 53-55); otherwise the
rendered document is written with exit code 0 (lines 265-268). -/
def run_generate_fin_characteristics (w : FinWorld) : RunOutcome :=
  if !(token_present w.token) then
    RunOutcome.mk 0 0 none
  else if w.response.status_code != 200 then
    RunOutcome.mk 1 1 none
  else
    match w.response.definition with
    | none => RunOutcome.mk 0 1 none
    | some d => RunOutcome.mk 0 1 (some (fin_liquid d.fieldDefinitions w.now))

/-- The order in which the sub-fields of one metaobject definition are
emitted inside its visualization section: `viz_html` renders every
`bar_fields` element (first component of `classify_fields`), then every
`text_fields` element (second component). -/
def rendered_subfield_keys (fields : List FieldDef) : List String :=
  ((classify_fields fields).1.map BarField.key) ++
    ((classify_fields fields).2.map TextField.key)

/-- Modelled from the spec: the marker-position formula the spec describes
for a numeric sub-field with declared bounds, mapping the runtime value `v`
linearly into the percentage range 0-100 using the bounds `mn`/`mx` as the
scale.  Stated over integers for comparison with the emitted formula, which
interpolates the raw runtime value. -/
def spec_marker_percent (mn mx v : Int) : Int := (v - mn) * 100 / (mx - mn)

/-- Modelled from the spec: the label rule the spec describes for a text
sub-field, stripping one trailing ` Text` suffix from the display name and
title-casing the remainder (nothing is stripped when the name does not end
in ` Text`). -/
def spec_label (tf_name : String) : String :=
  title (if (" Text".data).isSuffixOf tf_name.data then
    ⟨tf_name.data.take (tf_name.data.length - 5)⟩
  else
    tf_name)

example : label_of "Form Text" = "Form" := by decide
example : label_of "form_text" = "Form" := by decide
example : label_of "My Text Field" = "My Field" := by decide
example : spec_label "My Text Field" = "My Text Field" := by decide
example : spec_label "Form Text" = "Form" := by decide

theorem regular_fields_mem (edges : List Node) (f : RegularField)
    (hf : f ∈ regular_fields edges) :
    f.ns ∈ INCLUDE_NAMESPACES ∧ f.key ∉ EXCLUDE_KEYS := by
  induction edges with
  | nil => simp [regular_fields, partition_edges] at hf
  | cons n rest ih =>
    simp only [regular_fields, partition_edges] at hf
    by_cases h1 : n.typeName = "metaobject_reference"
    · rw [if_pos h1] at hf
      exact ih hf
    · rw [if_neg h1] at hf
      by_cases h2 : n.ns ∈ INCLUDE_NAMESPACES ∧ n.key ∉ EXCLUDE_KEYS
      · rw [if_pos h2] at hf
        simp only [List.mem_cons] at hf
        rcases hf with rfl | hf
        · exact h2
        · exact ih hf
      · rw [if_neg h2] at hf
        exact ih hf

theorem classify_fst_eq (fields : List FieldDef) :
    (classify_fields fields).1 =
      (fields.filter (fun f => decide (f.typeName = "number_integer"))).map mk_bar_field := by
  induction fields with
  | nil => rfl
  | cons f rest ih =>
    by_cases h1 : f.typeName = "number_integer"
    · simp [classify_fields, h1, ih]
    · by_cases h2 : f.typeName = "single_line_text_field" ∨ f.typeName = "multi_line_text_field"
      · simp [classify_fields, h1, h2, ih]
      · simp [classify_fields, h1, h2, ih]

theorem classify_snd_eq (fields : List FieldDef) :
    (classify_fields fields).2 =
      (fields.filter (fun f =>
        decide (f.typeName = "single_line_text_field" ∨
          f.typeName = "multi_line_text_field"))).map mk_text_field := by
  induction fields with
  | nil => rfl
  | cons f rest ih =>
    by_cases h1 : f.typeName = "number_integer"
    · have h2 : ¬(f.typeName = "single_line_text_field" ∨
          f.typeName = "multi_line_text_field") := by
        rw [h1]; rintro (h | h) <;> simp at h
      simp [classify_fields, h1, h2, ih]
    · by_cases h2 : f.typeName = "single_line_text_field" ∨ f.typeName = "multi_line_text_field"
      · simp [classify_fields, h1, h2, ih]
      · simp [classify_fields, h1, h2, ih]

theorem dict_insert_mem {d : List (String × MoDefEntry)} {k : String} {v : MoDefEntry}
    {p : String × MoDefEntry} (hp : p ∈ dict_insert d k v) : p.1 = k ∨ p ∈ d := by
  unfold dict_insert at hp
  by_cases hc : d.any (fun q => decide (q.1 = k))
  · rw [if_pos hc] at hp
    rcases List.mem_map.mp hp with ⟨q, hq, hqe⟩
    by_cases hk : q.1 = k
    · rw [if_pos hk] at hqe
      left; rw [← hqe]
    · rw [if_neg hk] at hqe
      right; rw [← hqe]; exact hq
  · rw [if_neg hc] at hp
    rcases List.mem_append.mp hp with h | h
    · right; exact h
    · left; simp only [List.mem_singleton] at h; rw [h]

theorem mo_defs_loop_isSome (moResp : String → MoResponse) (refs : List MoRef)
    (acc : List (String × MoDefEntry))
    (hacc : ∀ p ∈ acc, ((moResp p.1).definition).isSome = true) :
    ∀ p ∈ metaobject_definitions_loop moResp refs acc,
      ((moResp p.1).definition).isSome = true := by
  induction refs generalizing acc with
  | nil => simpa [metaobject_definitions_loop] using hacc
  | cons r rest ih =>
    intro p hp
    simp only [metaobject_definitions_loop] at hp
    cases hdef : (moResp r.key).definition with
    | none =>
      rw [hdef] at hp
      exact ih acc hacc p hp
    | some d =>
      rw [hdef] at hp
      refine ih _ ?_ p hp
      intro q hq
      rcases dict_insert_mem hq with h1 | h2
      · rw [h1, hdef]; rfl
      · exact hacc q h2

theorem metaobject_definitions_key_isSome (edges : List Node)
    (moResp : String → MoResponse) :
    ∀ p ∈ metaobject_definitions edges moResp,
      ((moResp p.1).definition).isSome = true := by
  intro p hp
  exact mo_defs_loop_isSome moResp (metaobject_refs edges) [] (by intro q hq; simp at hq) p hp

/-- C5: for identical fetched input (edges and per-type responses), the
rendered document of any two runs is the constant prefix `LIQ_A`, then the
run's timestamp, then a suffix `liquid_after_timestamp` that is a function
of the fetched input alone — so two runs over the same input are
byte-identical except for the embedded generation timestamp, and the
provenance counts are determined solely by the fetched input. -/
theorem c5_deterministic_modulo_timestamp (edges : List Node)
    (moResp : String → MoResponse) (t1 t2 : String) :
    liquid edges moResp t1 = LIQ_A ++ (t1 ++ liquid_after_timestamp edges moResp) ∧
    liquid edges moResp t2 = LIQ_A ++ (t2 ++ liquid_after_timestamp edges moResp) := by
  constructor <;> simp only [liquid, liquid_after_timestamp, String.append_assoc]

/-- C6: the sub-field classification of a metaobject definition is exactly a
filter on the declared type name: the bar list is the `number_integer`
sub-fields (in order) and the text list is the single- or multi-line text
sub-fields (in order); a sub-field of any other type lands in neither list
and is dropped without any error path. -/
theorem c6_subfield_classification (fields : List FieldDef) :
    (classify_fields fields).1 =
      (fields.filter (fun f => decide (f.typeName = "number_integer"))).map mk_bar_field ∧
    (classify_fields fields).2 =
      (fields.filter (fun f =>
        decide (f.typeName = "single_line_text_field" ∨
          f.typeName = "multi_line_text_field"))).map mk_text_field :=
  ⟨classify_fst_eq fields, classify_snd_eq fields⟩

/-- C8: when the credential environment value is absent, both generator
scripts exit with code 0, perform no network request, and write nothing. -/
theorem c8_missing_token_skips (w : World) (fw : FinWorld)
    (h1 : w.token = none) (h2 : fw.token = none) :
    run_generate_metafields w = ⟨0, 0, none⟩ ∧
    run_generate_fin_characteristics fw = ⟨0, 0, none⟩ := by
  constructor
  · simp [run_generate_metafields, h1, token_present]
  · simp [run_generate_fin_characteristics, h2, token_present]

/-- Witness for C8 at a concrete world with no credential. -/
theorem c8_witness :
    (none : Option String) = none ∧
    run_generate_metafields
      ⟨none, ⟨200, []⟩, (fun _ => ⟨200, none⟩), "2024-01-01 00:00 UTC"⟩ = ⟨0, 0, none⟩ ∧
    run_generate_fin_characteristics
      ⟨none, ⟨200, none⟩, "2024-01-01 00:00 UTC"⟩ = ⟨0, 0, none⟩ := by
  refine ⟨rfl, ?_⟩
  exact c8_missing_token_skips
    ⟨none, ⟨200, []⟩, (fun _ => ⟨200, none⟩), "2024-01-01 00:00 UTC"⟩
    ⟨none, ⟨200, none⟩, "2024-01-01 00:00 UTC"⟩ rfl rfl

/-- C1 counterexample: a field definition whose namespace `internal` is not
on the allow-list but whose type is `metaobject_reference` still contributes
a visualization section to the output — the partition loop collects
metaobject references before the allow/deny test is ever applied, so the
claim that every included descriptor satisfies the lists is false. -/
theorem c1_counterexample :
    "internal" ∉ INCLUDE_NAMESPACES ∧
    metaobject_definitions
      [⟨"internal", "fin_x", "Fin X", "metaobject_reference"⟩]
      (fun _ => ⟨200, some ⟨"Fin X Def", [⟨"rake", "Rake", "number_integer", []⟩]⟩⟩) =
      [("fin_x", ⟨"internal", "fin_x", "Fin X Def",
        [⟨"rake", "Rake", "number_integer", []⟩]⟩)] ∧
    (metaobject_visualizations
      [⟨"internal", "fin_x", "Fin X", "metaobject_reference"⟩]
      (fun _ => ⟨200, some ⟨"Fin X Def",
        [⟨"rake", "Rake", "number_integer", []⟩]⟩⟩)).length = 1 := by
  refine ⟨by decide, by decide, rfl⟩

/-- C1 (amended): the namespace allow-list and key deny-list are enforced
for the flat field items only — every element of `regular_fields` has an
allow-listed namespace and a non-deny-listed key; metaobject-reference
fields bypass both lists. -/
theorem c1_flat_items_respect_lists (edges : List Node) (f : RegularField)
    (hf : f ∈ regular_fields edges) :
    f.ns ∈ INCLUDE_NAMESPACES ∧ f.key ∉ EXCLUDE_KEYS :=
  regular_fields_mem edges f hf

/-- Witness for C1 at a concrete allow-listed field. -/
theorem c1_witness :
    (⟨"custom", "warranty", "Warranty", "single_line_text_field"⟩ : RegularField) ∈
      regular_fields [⟨"custom", "warranty", "Warranty", "single_line_text_field"⟩] ∧
    ("custom" ∈ INCLUDE_NAMESPACES ∧ "warranty" ∉ EXCLUDE_KEYS) :=
  ⟨by decide, c1_flat_items_respect_lists
    [⟨"custom", "warranty", "Warranty", "single_line_text_field"⟩]
    ⟨"custom", "warranty", "Warranty", "single_line_text_field"⟩ (by decide)⟩

/-- C2 counterexample: with a credential present and a success response
holding zero field definitions, the run exits 0 but the output file IS
written — there is no early exit between the `edges` extraction and the
unconditional `open(THEME_FILE, 'w')`, so the part of the claim saying the
file is left unwritten is false. -/
theorem c2_counterexample :
    (run_generate_metafields
      ⟨some "tok", ⟨200, []⟩, (fun _ => ⟨200, none⟩), "2024-01-01 00:00 UTC"⟩).exitCode
      = 0 ∧
    (run_generate_metafields
      ⟨some "tok", ⟨200, []⟩, (fun _ => ⟨200, none⟩), "2024-01-01 00:00 UTC"⟩).written
      = some (liquid [] (fun _ => ⟨200, none⟩) "2024-01-01 00:00 UTC") ∧
    (run_generate_metafields
      ⟨some "tok", ⟨200, []⟩, (fun _ => ⟨200, none⟩), "2024-01-01 00:00 UTC"⟩).written
      ≠ none := by
  refine ⟨rfl, rfl, ?_⟩
  intro h
  exact Option.noConfusion h

/-- C2 (amended): with a credential present and a success response holding
zero field definitions, the run exits 0, performs only the single schema
request, and overwrites the output file with a document containing no flat
field items and no visualization sections. -/
theorem c2_zero_definitions_still_writes (w : World)
    (htok : token_present w.token = true) (hstatus : w.response.status_code = 200)
    (hedges : w.response.edges = []) :
    run_generate_metafields w = ⟨0, 1, some (liquid [] w.moResp w.now)⟩ ∧
    regular_fields [] = [] ∧ metaobject_visualizations [] w.moResp = [] := by
  refine ⟨?_, rfl, rfl⟩
  simp [run_generate_metafields, htok, hstatus, hedges, metaobject_refs, partition_edges]

/-- Witness for C2 at a concrete world with an empty edge list. -/
theorem c2_witness :
    token_present (some "tok") = true ∧
    run_generate_metafields
      ⟨some "tok", ⟨200, []⟩, (fun _ => ⟨200, none⟩), "2024-01-01 00:00 UTC"⟩ =
      ⟨0, 1, some (liquid [] (fun _ => ⟨200, none⟩) "2024-01-01 00:00 UTC")⟩ ∧
    regular_fields [] = [] ∧
    metaobject_visualizations [] (fun _ => ⟨200, none⟩) = [] := by
  refine ⟨rfl, ?_⟩
  exact c2_zero_definitions_still_writes
    ⟨some "tok", ⟨200, []⟩, (fun _ => ⟨200, none⟩), "2024-01-01 00:00 UTC"⟩
    rfl rfl rfl

/-- C4 counterexample: the per-metaobject definition query's transport
response has status 500, yet the run performs it (two requests made),
completes with exit code 0, and writes the output file — the script checks
the status of the first fetch only, so the claim that any non-success
response aborts the run without writing is false. -/
theorem c4_counterexample :
    ((fun (_ : String) => (⟨500, none⟩ : MoResponse)) "fin_x").status_code ≠ 200 ∧
    run_generate_metafields
      ⟨some "tok", ⟨200, [⟨"custom", "fin_x", "Fin X", "metaobject_reference"⟩]⟩,
        (fun _ => ⟨500, none⟩), "2024-01-01 00:00 UTC"⟩ =
      ⟨0, 2, some (liquid [⟨"custom", "fin_x", "Fin X", "metaobject_reference"⟩]
        (fun _ => ⟨500, none⟩) "2024-01-01 00:00 UTC")⟩ :=
  ⟨by decide, rfl⟩

/-- C4 (amended): only the initial `metafieldDefinitions` fetch is
status-checked — a non-success status there makes the run exit with code 1,
after the single request and with no file written; the later per-metaobject
responses are never status-checked. -/
theorem c4_first_fetch_only_abort (w : World)
    (htok : token_present w.token = true) (hstatus : w.response.status_code ≠ 200) :
    run_generate_metafields w = ⟨1, 1, none⟩ := by
  simp [run_generate_metafields, htok, bne_iff_ne, hstatus]

/-- Witness for C4 at a concrete world whose first response has status
500. -/
theorem c4_witness :
    token_present (some "tok") = true ∧ (500 : Nat) ≠ 200 ∧
    run_generate_metafields
      ⟨some "tok", ⟨500, []⟩, (fun _ => ⟨200, none⟩), "2024-01-01 00:00 UTC"⟩ =
      ⟨1, 1, none⟩ := by
  refine ⟨rfl, by decide, ?_⟩
  exact c4_first_fetch_only_abort
    ⟨some "tok", ⟨500, []⟩, (fun _ => ⟨200, none⟩), "2024-01-01 00:00 UTC"⟩
    rfl (by decide)

set_option maxRecDepth 4096 in
/-- C3 counterexample: two numeric sub-fields identical except for their
declared `max` bound (100 vs 200) produce byte-identical emitted bar
groups, in which the marker style interpolates the raw runtime value
(`left: {{ mo_fin_characteristics.k1.value }}%;`); the spec's linear
bounds-mapping yields different percentages for the two bounds at runtime
value 150 (150 vs 75), so no single emitted formula can realize it — the
declared bounds play no role in the marker position. -/
theorem c3_counterexample :
    bar_group_html "fin_characteristics" "mo_fin_characteristics" ⟨"k1", "K1", "0", "100"⟩ =
      bar_group_html "fin_characteristics" "mo_fin_characteristics" ⟨"k1", "K1", "0", "200"⟩ ∧
    bar_group_html "fin_characteristics" "mo_fin_characteristics" ⟨"k1", "K1", "0", "200"⟩ =
      "      \x7b% if mo_fin_characteristics.k1.value != blank %\x7d\n      <div class=\"metaobject-viz__bar-group\">\n        <div class=\"metaobject-viz__bar-row\">\n          <span class=\"metaobject-viz__endpoint metaobject-viz__endpoint--left\"><span class=\"metaobject-viz__endpoint-text\"><strong>K1</strong></span></span>\n          <div class=\"metaobject-viz__bar\">\n            <div class=\"metaobject-viz__marker\" style=\"left: \x7b\x7b mo_fin_characteristics.k1.value \x7d\x7d%;\"></div>\n          </div>\n          <span class=\"metaobject-viz__endpoint metaobject-viz__endpoint--right\"><span class=\"metaobject-viz__endpoint-text\"><strong></strong></span></span>\n        </div>\n      </div>\n      \x7b% endif %\x7d\n" ∧
    spec_marker_percent 0 100 150 = 150 ∧
    spec_marker_percent 0 200 150 = 75 ∧
    (150 : Int) ≠ 75 := by
  refine ⟨rfl, rfl, by decide, by decide, by decide⟩

/-- C3 (amended): the emitted marker position is the raw runtime value used
directly as a percentage — the emitted bar group is independent of the
`min`/`max` members of the bar field; the bounds are still collected during
classification, defaulting to `0`/`100` when no validations are declared,
but are never consulted by the renderer. -/
theorem c3_marker_uses_raw_value (mo_type viz_var k n mn1 mx1 mn2 mx2 : String) :
    bar_group_html mo_type viz_var ⟨k, n, mn1, mx1⟩ =
      bar_group_html mo_type viz_var ⟨k, n, mn2, mx2⟩ ∧
    (classify_fields [⟨k, n, "number_integer", []⟩]).1 = [⟨k, n, "0", "100"⟩] :=
  ⟨rfl, rfl⟩

/-- C7 counterexample: a text sub-field fetched before a numeric sub-field
is nevertheless rendered after it — the rendered key order is the reverse of
the fetched key order for this two-field definition, and swapping the two
fetched sub-fields leaves the rendered section byte-identical, so the
section cannot reflect fetched order. -/
theorem c7_counterexample :
    rendered_subfield_keys
      [⟨"t1", "T One", "single_line_text_field", []⟩,
       ⟨"b1", "B One", "number_integer", []⟩] = ["b1", "t1"] ∧
    ([⟨"t1", "T One", "single_line_text_field", []⟩,
      ⟨"b1", "B One", "number_integer", []⟩] : List FieldDef).map FieldDef.key =
      ["t1", "b1"] ∧
    viz_html "m" "custom" "m" "M"
      [⟨"t1", "T One", "single_line_text_field", []⟩,
       ⟨"b1", "B One", "number_integer", []⟩] =
    viz_html "m" "custom" "m" "M"
      [⟨"b1", "B One", "number_integer", []⟩,
       ⟨"t1", "T One", "single_line_text_field", []⟩] := by
  refine ⟨by decide, by decide, rfl⟩

/-- C7 (amended): within one visualization section all numeric (bar)
sub-fields are emitted before all text sub-fields; fetched order is
preserved only inside each of the two groups. -/
theorem c7_bars_before_texts (fields : List FieldDef) :
    rendered_subfield_keys fields =
      ((fields.filter (fun f => decide (f.typeName = "number_integer"))).map
        FieldDef.key) ++
      ((fields.filter (fun f =>
        decide (f.typeName = "single_line_text_field" ∨
          f.typeName = "multi_line_text_field"))).map FieldDef.key) := by
  unfold rendered_subfield_keys
  rw [classify_fst_eq, classify_snd_eq, List.map_map, List.map_map]
  rfl

set_option maxRecDepth 4096 in
/-- C9 counterexample: the display name `My Text Field` has an interior
` Text` occurrence and no trailing one; the code's label (delete every
occurrence, then title-case) is `My Field`, while stripping only a trailing
suffix as the claim states would leave `My Text Field` — and the rendered
description block indeed shows `My Field`. -/
theorem c9_counterexample :
    label_of "My Text Field" = "My Field" ∧
    spec_label "My Text Field" = "My Text Field" ∧
    ("My Field" : String) ≠ "My Text Field" ∧
    description_html "mo_m" ⟨"k", "My Text Field", false⟩ =
      "      \x7b% if mo_m.k.value != blank %\x7d\n      <div class=\"metaobject-viz__description\">\n        <strong>My Field |</strong> \x7b\x7b mo_m.k.value \x7d\x7d\n      </div>\n      \x7b% endif %\x7d\n" := by
  refine ⟨by decide, by decide, by decide, by decide⟩

/-- The description markup of one text sub-field up to its label. -/
def descPrefix (viz_var k : String) : String :=
  "      \x7b% if " ++ viz_var ++ "." ++ k ++ ".value != blank %\x7d\n" ++
  "      <div class=\"metaobject-viz__description\">\n" ++
  "        <strong>"

/-- The description markup of one text sub-field after its label. -/
def descSuffix (viz_var k : String) (multiline : Bool) : String :=
  " |</strong> \x7b\x7b " ++ viz_var ++ "." ++ k ++ ".value" ++
    (if multiline then " | newline_to_br" else "") ++ " \x7d\x7d\n" ++
  "      </div>\n" ++
  "      \x7b% endif %\x7d\n"

/-- C9 (amended): the rendered label of a text sub-field is obtained by
deleting every occurrence of ` Text` and of `_text` from the display name
(not only a trailing suffix), replacing underscores with spaces, and
title-casing the result (`label_of`); for the fin sub-field display names
this yields the labels `Form`, `Function`, `Feel`, `Overall`. -/
theorem c9_label_transform (viz_var k n : String) (ml : Bool) :
    description_html viz_var ⟨k, n, ml⟩ =
      descPrefix viz_var k ++ label_of n ++ descSuffix viz_var k ml ∧
    label_of "Form Text" = "Form" ∧
    label_of "Function Text" = "Function" ∧
    label_of "Feel Text" = "Feel" ∧
    label_of "Overall Text" = "Overall" := by
  refine ⟨?_, by decide, by decide, by decide, by decide⟩
  simp only [description_html, descPrefix, descSuffix, String.append_assoc]

/-- C10: a metaobject reference whose per-type query returns a success-shaped
body with a `null` definition contributes no entry to the definitions dict
(hence no visualization section), and the run still completes with exit
code 0 and writes the rendered document. -/
theorem c10_null_definition_skipped (w : World) (r : MoRef)
    (htok : token_present w.token = true) (hstatus : w.response.status_code = 200)
    (_hr : r ∈ metaobject_refs w.response.edges)
    (hnull : (w.moResp r.key).definition = none) :
    (∀ p ∈ metaobject_definitions w.response.edges w.moResp, p.1 ≠ r.key) ∧
    (run_generate_metafields w).exitCode = 0 ∧
    (run_generate_metafields w).written =
      some (liquid w.response.edges w.moResp w.now) := by
  refine ⟨?_, ?_, ?_⟩
  · intro p hp hkey
    have hs := metaobject_definitions_key_isSome w.response.edges w.moResp p hp
    rw [hkey, hnull] at hs
    simp at hs
  · simp [run_generate_metafields, htok, hstatus]
  · simp [run_generate_metafields, htok, hstatus]

/-- Witness for C10: two references, one whose type resolves to a
definition and one whose type resolves to `null`; the latter is absent from
the definitions dict and the run writes the document. -/
theorem c10_witness :
    token_present (some "tok") = true ∧
    (⟨"custom", "absent_t", "Absent"⟩ : MoRef) ∈ metaobject_refs
      [⟨"custom", "absent_t", "Absent", "metaobject_reference"⟩,
       ⟨"custom", "fin_t", "Fin", "metaobject_reference"⟩] ∧
    ((fun k => if k == "fin_t" then
        (⟨200, some ⟨"Fin", [⟨"form_text", "Form Text", "multi_line_text_field", []⟩]⟩⟩ :
          MoResponse)
      else ⟨200, none⟩) "absent_t").definition = none ∧
    ((∀ p ∈ metaobject_definitions
        [⟨"custom", "absent_t", "Absent", "metaobject_reference"⟩,
         ⟨"custom", "fin_t", "Fin", "metaobject_reference"⟩]
        (fun k => if k == "fin_t" then
          (⟨200, some ⟨"Fin", [⟨"form_text", "Form Text", "multi_line_text_field", []⟩]⟩⟩ :
            MoResponse)
        else ⟨200, none⟩), p.1 ≠ "absent_t") ∧
      (run_generate_metafields
        ⟨some "tok",
         ⟨200, [⟨"custom", "absent_t", "Absent", "metaobject_reference"⟩,
                ⟨"custom", "fin_t", "Fin", "metaobject_reference"⟩]⟩,
         (fun k => if k == "fin_t" then
           (⟨200, some ⟨"Fin", [⟨"form_text", "Form Text", "multi_line_text_field", []⟩]⟩⟩ :
             MoResponse)
         else ⟨200, none⟩), "2024-01-01 00:00 UTC"⟩).exitCode = 0 ∧
      (run_generate_metafields
        ⟨some "tok",
         ⟨200, [⟨"custom", "absent_t", "Absent", "metaobject_reference"⟩,
                ⟨"custom", "fin_t", "Fin", "metaobject_reference"⟩]⟩,
         (fun k => if k == "fin_t" then
           (⟨200, some ⟨"Fin", [⟨"form_text", "Form Text", "multi_line_text_field", []⟩]⟩⟩ :
             MoResponse)
         else ⟨200, none⟩), "2024-01-01 00:00 UTC"⟩).written =
        some (liquid
          [⟨"custom", "absent_t", "Absent", "metaobject_reference"⟩,
           ⟨"custom", "fin_t", "Fin", "metaobject_reference"⟩]
          (fun k => if k == "fin_t" then
            (⟨200, some ⟨"Fin", [⟨"form_text", "Form Text", "multi_line_text_field", []⟩]⟩⟩ :
              MoResponse)
          else ⟨200, none⟩) "2024-01-01 00:00 UTC")) := by
  refine ⟨rfl, by decide, rfl, ?_⟩
  exact c10_null_definition_skipped
    ⟨some "tok",
     ⟨200, [⟨"custom", "absent_t", "Absent", "metaobject_reference"⟩,
            ⟨"custom", "fin_t", "Fin", "metaobject_reference"⟩]⟩,
     (fun k => if k == "fin_t" then
       (⟨200, some ⟨"Fin", [⟨"form_text", "Form Text", "multi_line_text_field", []⟩]⟩⟩ :
         MoResponse)
     else ⟨200, none⟩), "2024-01-01 00:00 UTC"⟩
    ⟨"custom", "absent_t", "Absent"⟩ rfl rfl (by decide) rfl
